import Mathlib

/-!
Shallow embedding of the streaming chat client of this repository
(frontend component StreamingChatbotComponent in src/unnamed/part_000).

The component keeps four pieces of React state: `input`, `messages`,
`loading` and `isConnected`.  Incoming WebSocket frames are handled by
`ws.onmessage`, which parses the frame as JSON and dispatches on its
`type` field (token / delimiter / error / typing / unknown); a parse
failure is caught and only clears `loading`.  `ws.onclose` and
`ws.onerror` clear `isConnected` and `loading`.  `handleSubmit` guards
on a non-empty trimmed input and `isConnected`, appends a user message,
and either sends the frame (socket readyState OPEN) or appends a
"Connection lost" bot message.

Modelling notes:
* the source's `id: Date.now() + Math.random()` field is wall-clock
  plus randomness; it is not part of any claim and is omitted from the
  embedded `Turn`;
* a user message in the source has no `hasAnswer` field (JS
  `undefined`, falsy); it is embedded with `hasAnswer = false`, which
  is observationally equivalent because every read of `hasAnswer` in
  the source is guarded by `sender === "bot"` or is a boolean test;
* a `token` frame whose `content` field is absent would, in JS, store
  `undefined` and concatenate as the string "undefined"; `jsStr`
  performs that coercion eagerly, which yields the same `text` strings
  under all subsequent concatenations.
-/

namespace StreamingChatbot

/-- One message of the transcript: the objects stored in the
`messages` array of the component (`sender`, `text`, `hasAnswer`). -/
structure Turn where
  sender : String
  text : String
  hasAnswer : Bool
deriving DecidableEq, Repr

/-- The React state of the component: `input`, `messages`, `loading`
(the awaiting-response flag) and `isConnected`. -/
structure ChatState where
  input : String
  messages : List Turn
  loading : Bool
  isConnected : Bool
deriving DecidableEq, Repr

/-- The `useState` initial values: empty input, empty transcript,
not loading, not connected. -/
def initialState : ChatState :=
  { input := "", messages := [], loading := false, isConnected := false }

/-- An incoming WebSocket frame as seen by `ws.onmessage`: either the
payload fails `JSON.parse` (`malformed`), or it parsed to an object
with a `type` field and optional `content` and `text` fields. -/
inductive RawFrame where
  | malformed : RawFrame
  | parsed (type : String) (content : Option String) (text : Option String) : RawFrame
deriving DecidableEq, Repr

/-- The JS built-in `String.prototype.trim` (an external primitive,
not repository code): strips whitespace from both ends of the string.
Embedded with a structurally recursive definition so that it
evaluates inside the kernel. -/
def jsTrim (s : String) : String :=
  String.mk (((s.data.dropWhile Char.isWhitespace).reverse.dropWhile
    Char.isWhitespace).reverse)

/-- JS string coercion of a possibly-absent field, as performed by
string concatenation with `undefined`. -/
def jsStr : Option String → String
  | some s => s
  | none => "undefined"

/-- The source's `data.content || "An error occurred"`: JS `||`
falls through exactly on the falsy values `undefined` and `""`. -/
def errorFallback : Option String → String
  | none => "An error occurred"
  | some s => if s = "" then "An error occurred" else s

/-- The `setMessages` updater of the `token` branch: if the last
message exists, is a bot message and has `hasAnswer` false, append the
content to its text in place; otherwise push a fresh non-finalized bot
message carrying the content. -/
def tokenUpdate (prev : List Turn) (content : Option String) : List Turn :=
  match prev.getLast? with
  | some last =>
      if last.sender = "bot" ∧ last.hasAnswer = false then
        prev.dropLast ++ [{ last with text := last.text ++ jsStr content }]
      else
        prev ++ [{ sender := "bot", text := jsStr content, hasAnswer := false }]
  | none => prev ++ [{ sender := "bot", text := jsStr content, hasAnswer := false }]

/-- The `setMessages` updater of the `delimiter`/"###" branch: if the
last message exists and is a bot message, set its `hasAnswer` to true;
otherwise leave the list unchanged. -/
def delimiterUpdate (prev : List Turn) : List Turn :=
  match prev.getLast? with
  | some last =>
      if last.sender = "bot" then
        prev.dropLast ++ [{ last with hasAnswer := true }]
      else prev
  | none => prev

/-- The body of `ws.onmessage`: a malformed frame only clears
`loading` (the catch block); a parsed frame is dispatched on `type`
through the source's if/else chain, in order: "token", "delimiter"
with text exactly "###", "error", "typing", unknown. -/
def onmessage (s : ChatState) (frame : RawFrame) : ChatState :=
  match frame with
  | .malformed => { s with loading := false }
  | .parsed ty content tx =>
      if ty = "token" then
        { s with messages := tokenUpdate s.messages content }
      else if ty = "delimiter" ∧ tx = some "###" then
        { s with messages := delimiterUpdate s.messages, loading := false }
      else if ty = "error" then
        { s with
            messages := s.messages ++
              [{ sender := "bot", text := errorFallback content, hasAnswer := false }],
            loading := false }
      else if ty = "typing" then
        s
      else
        s

/-- Fold `ws.onmessage` over a sequence of incoming frames in arrival
order. -/
def processFrames (s : ChatState) (frames : List RawFrame) : ChatState :=
  frames.foldl onmessage s

/-- The WebSocket `readyState` values. -/
inductive ReadyState where
  | CONNECTING : ReadyState
  | OPEN : ReadyState
  | CLOSING : ReadyState
  | CLOSED : ReadyState
deriving DecidableEq, Repr

/-- The `ws.onopen` handler: sets `isConnected`. -/
def onopen (s : ChatState) : ChatState :=
  { s with isConnected := true }

/-- The `ws.onclose` handler: clears `isConnected` and `loading`. -/
def onclose (s : ChatState) : ChatState :=
  { s with isConnected := false, loading := false }

/-- The `ws.onerror` handler: clears `isConnected` and `loading`. -/
def onerror (s : ChatState) : ChatState :=
  { s with isConnected := false, loading := false }

/-- The outcome of `handleSubmit`: the new component state and the
`message` field of the frame written to the socket, if any was sent. -/
structure SubmitResult where
  state : ChatState
  sent : Option String
deriving DecidableEq, Repr

/-- The synthetic bot message text of `handleSubmit`'s not-OPEN
branch. -/
def connectionLostText : String :=
  "Connection lost. Please refresh the page to reconnect."

/-- The body of `handleSubmit` (minus `e.preventDefault()`, which has
no counterpart in the embedding): return unchanged unless the trimmed
input is non-empty and `isConnected` holds; then append the user
message (with the untrimmed input as text), clear the input, set
`loading`, and either send `{message: input}` when the socket's
readyState is OPEN, or append the "Connection lost" bot message and
clear `loading` again.  The `socket` argument is
`socketRef.current?.readyState` (`none` when the ref is null). -/
def handleSubmit (s : ChatState) (socket : Option ReadyState) : SubmitResult :=
  if jsTrim s.input = "" ∨ s.isConnected = false then
    { state := s, sent := none }
  else
    let userMessage : Turn := { sender := "user", text := s.input, hasAnswer := false }
    let s1 : ChatState :=
      { s with messages := s.messages ++ [userMessage], input := "", loading := true }
    if socket = some ReadyState.OPEN then
      { state := s1, sent := some s.input }
    else
      { state :=
          { s1 with
              messages := s1.messages ++
                [{ sender := "bot", text := connectionLostText, hasAnswer := false }],
              loading := false },
        sent := none }

/-- The guard of the token branch, as a predicate on the transcript:
the last message exists, is a bot message, and is not finalized. -/
def lastIsOpenBot (msgs : List Turn) : Bool :=
  match msgs.getLast? with
  | some last => if last.sender = "bot" ∧ last.hasAnswer = false then true else false
  | none => false

/-- Number of assistant turns of the transcript that are open
(`sender = "bot"` and `hasAnswer = false`). -/
def openAssistantCount (msgs : List Turn) : Nat :=
  (msgs.filter fun t => decide (t.sender = "bot" ∧ t.hasAnswer = false)).length

/-- A list of `token` frames carrying the given contents in order. -/
def tokenFrames (cs : List String) : List RawFrame :=
  cs.map fun c => RawFrame.parsed "token" (some c) none

/-- Ordered concatenation of token contents with no separator. -/
def joinTokens : List String → String
  | [] => ""
  | c :: cs => c ++ joinTokens cs

/-! Evaluation lemmas for the `ws.onmessage` dispatch, one per branch
of the source's if/else chain. -/

theorem onmessage_malformed (s : ChatState) :
    onmessage s RawFrame.malformed = { s with loading := false } := rfl

theorem onmessage_token (s : ChatState) (c tx : Option String) :
    onmessage s (RawFrame.parsed "token" c tx)
      = { s with messages := tokenUpdate s.messages c } := rfl

theorem onmessage_delimiter (s : ChatState) (c : Option String) :
    onmessage s (RawFrame.parsed "delimiter" c (some "###"))
      = { s with messages := delimiterUpdate s.messages, loading := false } := rfl

theorem onmessage_error (s : ChatState) (c tx : Option String) :
    onmessage s (RawFrame.parsed "error" c tx)
      = { s with
            messages := s.messages ++
              [{ sender := "bot", text := errorFallback c, hasAnswer := false }],
            loading := false } := rfl

/-! Shape lemmas for the two transcript updaters. -/

theorem tokenUpdate_nil (c : Option String) :
    tokenUpdate [] c = [{ sender := "bot", text := jsStr c, hasAnswer := false }] := rfl

theorem tokenUpdate_concat (ms : List Turn) (t : Turn) (c : Option String) :
    tokenUpdate (ms ++ [t]) c =
      if t.sender = "bot" ∧ t.hasAnswer = false then
        ms ++ [{ t with text := t.text ++ jsStr c }]
      else
        (ms ++ [t]) ++ [{ sender := "bot", text := jsStr c, hasAnswer := false }] := by
  simp only [tokenUpdate, List.getLast?_concat, List.dropLast_concat]

theorem delimiterUpdate_nil : delimiterUpdate [] = [] := rfl

theorem delimiterUpdate_concat (ms : List Turn) (t : Turn) :
    delimiterUpdate (ms ++ [t]) =
      if t.sender = "bot" then ms ++ [{ t with hasAnswer := true }] else ms ++ [t] := by
  simp only [delimiterUpdate, List.getLast?_concat, List.dropLast_concat]

theorem lastIsOpenBot_concat (ms : List Turn) (t : Turn) :
    lastIsOpenBot (ms ++ [t])
      = if t.sender = "bot" ∧ t.hasAnswer = false then true else false := by
  simp only [lastIsOpenBot, List.getLast?_concat]

/-- When the transcript does not end in an open bot message, a token
starts a fresh non-finalized bot message. -/
theorem tokenUpdate_not_open (ms : List Turn) (c : Option String)
    (h : lastIsOpenBot ms = false) :
    tokenUpdate ms c
      = ms ++ [{ sender := "bot", text := jsStr c, hasAnswer := false }] := by
  induction ms using List.reverseRecOn with
  | nil => rfl
  | append_singleton ms t _ =>
      rw [lastIsOpenBot_concat] at h
      rw [tokenUpdate_concat, if_neg]
      intro hc
      rw [if_pos hc] at h
      exact absurd h (by simp)

/-- When the transcript ends in an open bot message, a token appends
its content to that message's text in place. -/
theorem tokenUpdate_open (ms : List Turn) (txt : String) (c : Option String) :
    tokenUpdate (ms ++ [{ sender := "bot", text := txt, hasAnswer := false }]) c
      = ms ++ [{ sender := "bot", text := txt ++ jsStr c, hasAnswer := false }] := by
  rw [tokenUpdate_concat, if_pos ⟨rfl, rfl⟩]

/-- The delimiter updater changes nothing on a transcript it has
already updated. -/
theorem delimiterUpdate_idem (ms : List Turn) :
    delimiterUpdate (delimiterUpdate ms) = delimiterUpdate ms := by
  induction ms using List.reverseRecOn with
  | nil => rfl
  | append_singleton ms t _ =>
      rw [delimiterUpdate_concat]
      by_cases hb : t.sender = "bot"
      · rw [if_pos hb, delimiterUpdate_concat, if_pos hb]
      · rw [if_neg hb, delimiterUpdate_concat, if_neg hb]

/-- Folding the token updater over a list of contents, starting from a
transcript that ends in an open bot message, concatenates all the
contents onto that message's text, in order and with no separator. -/
theorem foldl_tokenUpdate_open (cs : List String) (ms : List Turn) (txt : String) :
    List.foldl (fun m c => tokenUpdate m (some c))
        (ms ++ [{ sender := "bot", text := txt, hasAnswer := false }]) cs
      = ms ++ [{ sender := "bot", text := txt ++ joinTokens cs, hasAnswer := false }] := by
  induction cs generalizing txt with
  | nil => rw [List.foldl_nil, joinTokens, String.append_empty]
  | cons c cs ih =>
      rw [List.foldl_cons, tokenUpdate_open, joinTokens, ← String.append_assoc]
      exact ih (txt ++ c)

/-- Processing a list of token frames only touches `messages`, by
folding the token updater over the contents. -/
theorem processFrames_tokens (cs : List String) (s : ChatState) :
    processFrames s (tokenFrames cs)
      = { s with
            messages := List.foldl (fun m c => tokenUpdate m (some c)) s.messages cs } := by
  induction cs generalizing s with
  | nil => rw [tokenFrames, List.map_nil, processFrames, List.foldl_nil, List.foldl_nil]
  | cons c cs ih =>
      rw [tokenFrames, List.map_cons, processFrames, List.foldl_cons, ← processFrames,
        onmessage_token, ← tokenFrames, ih, List.foldl_cons]

/-- When the transcript ends in an open bot message, a token mutates
it in place and the number of messages does not change. -/
theorem tokenUpdate_open_length (ms : List Turn) (c : Option String)
    (h : lastIsOpenBot ms = true) :
    (tokenUpdate ms c).length = ms.length := by
  induction ms using List.reverseRecOn with
  | nil => exact absurd h (by simp [lastIsOpenBot])
  | append_singleton ms t _ =>
      rw [lastIsOpenBot_concat] at h
      by_cases hc : t.sender = "bot" ∧ t.hasAnswer = false
      · rw [tokenUpdate_concat, if_pos hc]
        simp
      · rw [if_neg hc] at h
        exact absurd h (by simp)

/-- C1, counterexample: from the initial state, processing the frame
sequence token("a") then error("oops") leaves the transcript with two
bot messages that both have hasAnswer = false — the error branch
appends a fresh open bot message without checking whether an open one
already exists, so the at-most-one-open-assistant-turn invariant
claimed by the spec fails. -/
theorem C1_counterexample :
    openAssistantCount
        (processFrames initialState
          [RawFrame.parsed "token" (some "a") none,
           RawFrame.parsed "error" (some "oops") none]).messages = 2
  ∧ ¬ openAssistantCount
        (processFrames initialState
          [RawFrame.parsed "token" (some "a") none,
           RawFrame.parsed "error" (some "oops") none]).messages ≤ 1 := by
  decide

/-- C1, amended: a token event creates a new assistant turn only when
the last turn is not an open assistant turn (when the last turn is an
open bot message the token is absorbed in place and the message count
is unchanged); an error event, however, always appends a fresh
assistant turn with hasAnswer = false, even when an open assistant
turn already exists, so more than one assistant turn may be open at
once. -/
theorem C1_amended_invariant (s : ChatState) (c m tx tx2 : Option String) :
    (lastIsOpenBot s.messages = true →
      (onmessage s (RawFrame.parsed "token" c tx)).messages.length
        = s.messages.length)
  ∧ (onmessage s (RawFrame.parsed "error" m tx2)).messages
      = s.messages ++
        [{ sender := "bot", text := errorFallback m, hasAnswer := false }] := by
  constructor
  · intro h
    rw [onmessage_token]
    exact tokenUpdate_open_length s.messages c h
  · rw [onmessage_error]

/-- C1, witness for the amended theorem: with a single open bot
message "a" in the transcript, a token "b" leaves the message count at
one, and an error appends a second (open) bot message. -/
theorem C1_amended_invariant_witness :
    (onmessage
        { input := "", messages := [{ sender := "bot", text := "a", hasAnswer := false }],
          loading := true, isConnected := true }
        (RawFrame.parsed "token" (some "b") none)).messages.length = 1
  ∧ (onmessage
        { input := "", messages := [{ sender := "bot", text := "a", hasAnswer := false }],
          loading := true, isConnected := true }
        (RawFrame.parsed "error" (some "oops") none)).messages
      = [{ sender := "bot", text := "a", hasAnswer := false },
         { sender := "bot", text := "oops", hasAnswer := false }] := by
  have h := C1_amended_invariant
    { input := "", messages := [{ sender := "bot", text := "a", hasAnswer := false }],
      loading := true, isConnected := true }
    (some "b") (some "oops") none none
  exact ⟨(h.1 (by decide)).trans rfl, h.2.trans (by decide)⟩

/-- C2: between a user submission and the next "###" delimiter, a
non-empty token sequence produces exactly one new assistant turn whose
text is the ordered separator-free concatenation of the token
contents, finalized by the delimiter; and a single token arriving when
the last turn is not an open assistant turn starts a new assistant
turn carrying exactly that token's content, not finalized. -/
theorem C2_token_concatenation (s : ChatState) (c : String) (rest : List String)
    (h : lastIsOpenBot s.messages = false) :
    (processFrames s (tokenFrames (c :: rest)
        ++ [RawFrame.parsed "delimiter" none (some "###")])).messages
      = s.messages
        ++ [{ sender := "bot", text := joinTokens (c :: rest), hasAnswer := true }]
  ∧ (onmessage s (RawFrame.parsed "token" (some c) none)).messages
      = s.messages ++ [{ sender := "bot", text := c, hasAnswer := false }] := by
  constructor
  · rw [processFrames, List.foldl_append, ← processFrames, ← processFrames,
      processFrames_tokens, List.foldl_cons, tokenUpdate_not_open s.messages (some c) h]
    simp only [jsStr]
    rw [foldl_tokenUpdate_open, processFrames, List.foldl_cons, List.foldl_nil,
      onmessage_delimiter]
    dsimp only
    rw [delimiterUpdate_concat, if_pos rfl]
    simp only [joinTokens]
  · rw [onmessage_token, tokenUpdate_not_open s.messages (some c) h]
    simp only [jsStr]

/-- C2, witness: after the user turn "hi", the frames token("Hel"),
token("lo!"), delimiter("###") produce the transcript
[user "hi", bot "Hello!" finalized]. -/
theorem C2_token_concatenation_witness :
    (processFrames
        { input := "", messages := [{ sender := "user", text := "hi", hasAnswer := false }],
          loading := true, isConnected := true }
        (tokenFrames ["Hel", "lo!"]
          ++ [RawFrame.parsed "delimiter" none (some "###")])).messages
      = [{ sender := "user", text := "hi", hasAnswer := false },
         { sender := "bot", text := "Hello!", hasAnswer := true }] := by
  have h := (C2_token_concatenation
    { input := "", messages := [{ sender := "user", text := "hi", hasAnswer := false }],
      loading := true, isConnected := true }
    "Hel" ["lo!"] (by decide)).1
  exact h.trans (by decide)

/-- C3: a frame that fails JSON parsing never changes the transcript
and always leaves the loading flag false; the failure is absorbed by
the catch block and the handler returns normally. -/
theorem C3_malformed_frame (s : ChatState) :
    (onmessage s RawFrame.malformed).messages = s.messages
  ∧ (onmessage s RawFrame.malformed).loading = false :=
  ⟨rfl, rfl⟩

/-- C4, counterexample: submitting "test" while disconnected
(isConnected = false, socket readyState CLOSED) sends no frame but
also appends no synthetic bot turn at all — the guard returns
silently, so the claimed user-facing NotReady turn never appears. -/
theorem C4_counterexample :
    (handleSubmit
        { input := "test", messages := [], loading := false, isConnected := false }
        (some ReadyState.CLOSED)).sent = none
  ∧ (handleSubmit
        { input := "test", messages := [], loading := false, isConnected := false }
        (some ReadyState.CLOSED)).state.messages = [] := by
  decide

/-- C4, amended: when the tracked connection flag is false, submit is
a silent no-op (no frame, state unchanged, nothing thrown); the
synthetic "Connection lost" bot turn is appended only when the flag
still reads connected but the socket's readyState is not OPEN — in
that case no frame is sent, the user turn plus the bot turn are
appended, and loading ends false. -/
theorem C4_submit_disconnected (s : ChatState) (socket : Option ReadyState) :
    (s.isConnected = false → handleSubmit s socket = { state := s, sent := none })
  ∧ (jsTrim s.input ≠ "" → s.isConnected = true → socket ≠ some ReadyState.OPEN →
      (handleSubmit s socket).sent = none
      ∧ (handleSubmit s socket).state.messages
          = s.messages ++
            [{ sender := "user", text := s.input, hasAnswer := false },
             { sender := "bot", text := connectionLostText, hasAnswer := false }]
      ∧ (handleSubmit s socket).state.loading = false) := by
  constructor
  · intro h
    rw [handleSubmit, if_pos (Or.inr h)]
  · intro ht hc hs
    rw [handleSubmit, if_neg]
    · dsimp only
      rw [if_neg hs]
      exact ⟨rfl, by simp, rfl⟩
    · intro hor
      rcases hor with h1 | h2
      · exact ht h1
      · rw [hc] at h2
        exact absurd h2 (by simp)

/-- C4, witness for the amended theorem: both branches at concrete
inputs — disconnected submit of "test" is a silent no-op, and a
connected submit of "test" over a CLOSED socket appends the user turn
and the "Connection lost" bot turn without sending. -/
theorem C4_submit_disconnected_witness :
    handleSubmit
        { input := "test", messages := [], loading := false, isConnected := false }
        (some ReadyState.CLOSED)
      = { state :=
            { input := "test", messages := [], loading := false, isConnected := false },
          sent := none }
  ∧ (handleSubmit
        { input := "test", messages := [], loading := false, isConnected := true }
        (some ReadyState.CLOSED)).sent = none
  ∧ (handleSubmit
        { input := "test", messages := [], loading := false, isConnected := true }
        (some ReadyState.CLOSED)).state.messages
      = [{ sender := "user", text := "test", hasAnswer := false },
         { sender := "bot", text := connectionLostText, hasAnswer := false }]
  ∧ (handleSubmit
        { input := "test", messages := [], loading := false, isConnected := true }
        (some ReadyState.CLOSED)).state.loading = false := by
  have h1 := (C4_submit_disconnected
    { input := "test", messages := [], loading := false, isConnected := false }
    (some ReadyState.CLOSED)).1 rfl
  have h2 := (C4_submit_disconnected
    { input := "test", messages := [], loading := false, isConnected := true }
    (some ReadyState.CLOSED)).2 (by decide) rfl (by decide)
  exact ⟨h1, h2.1, h2.2.1.trans (by decide), h2.2.2⟩

/-- C5: when the connection closes or errors while the loading flag is
set, the handler clears the flag and appends no transcript turn for
the disconnection. -/
theorem C5_disconnect_clears_loading (s : ChatState) (h : s.loading = true) :
    (onclose s).loading = false ∧ (onclose s).messages = s.messages
  ∧ (onerror s).loading = false ∧ (onerror s).messages = s.messages :=
  ⟨rfl, rfl, rfl, rfl⟩

/-- C5, witness: closing or erroring the connection in a loading state
with an empty transcript clears the flag and leaves the transcript
empty. -/
theorem C5_disconnect_clears_loading_witness :
    (onclose { input := "", messages := [], loading := true, isConnected := true }).loading
      = false
  ∧ (onclose { input := "", messages := [], loading := true, isConnected := true }).messages
      = []
  ∧ (onerror { input := "", messages := [], loading := true, isConnected := true }).loading
      = false
  ∧ (onerror { input := "", messages := [], loading := true, isConnected := true }).messages
      = [] :=
  C5_disconnect_clears_loading
    { input := "", messages := [], loading := true, isConnected := true } rfl

/-- C6: the "###" delimiter is idempotent on the whole component
state — applying it twice equals applying it once — and each
application leaves the loading flag false. -/
theorem C6_delimiter_idempotent (s : ChatState) :
    onmessage (onmessage s (RawFrame.parsed "delimiter" none (some "###")))
        (RawFrame.parsed "delimiter" none (some "###"))
      = onmessage s (RawFrame.parsed "delimiter" none (some "###"))
  ∧ (onmessage s (RawFrame.parsed "delimiter" none (some "###"))).loading = false := by
  rw [onmessage_delimiter, onmessage_delimiter]
  refine ⟨?_, rfl⟩
  dsimp only
  rw [delimiterUpdate_idem]

/-- C7: a submission whose trimmed input is empty changes nothing: no
user turn, no frame on the wire, loading untouched. -/
theorem C7_empty_input (s : ChatState) (socket : Option ReadyState)
    (h : jsTrim s.input = "") :
    handleSubmit s socket = { state := s, sent := none } := by
  rw [handleSubmit, if_pos (Or.inl h)]

/-- C7, witness: a whitespace-only input over an OPEN socket is a
complete no-op. -/
theorem C7_empty_input_witness :
    handleSubmit { input := "   ", messages := [], loading := false, isConnected := true }
        (some ReadyState.OPEN)
      = { state :=
            { input := "   ", messages := [], loading := false, isConnected := true },
          sent := none } :=
  C7_empty_input
    { input := "   ", messages := [], loading := false, isConnected := true }
    (some ReadyState.OPEN) (by decide)

/-- C8: an error frame appends exactly one new bot turn carrying the
message (or the fallback text "An error occurred" when the message is
absent or empty), not finalized, and clears loading; in particular
submitting "x" and then receiving error("oops") yields the transcript
[user "x", bot "oops" open] with loading false. -/
theorem C8_error_signal (s : ChatState) (m tx : Option String) :
    onmessage s (RawFrame.parsed "error" m tx)
      = { s with
            messages := s.messages ++
              [{ sender := "bot", text := errorFallback m, hasAnswer := false }],
            loading := false }
  ∧ errorFallback (some "oops") = "oops"
  ∧ errorFallback none = "An error occurred"
  ∧ errorFallback (some "") = "An error occurred"
  ∧ (processFrames
        (handleSubmit
          { input := "x", messages := [], loading := false, isConnected := true }
          (some ReadyState.OPEN)).state
        [RawFrame.parsed "error" (some "oops") none]).messages
      = [{ sender := "user", text := "x", hasAnswer := false },
         { sender := "bot", text := "oops", hasAnswer := false }]
  ∧ (processFrames
        (handleSubmit
          { input := "x", messages := [], loading := false, isConnected := true }
          (some ReadyState.OPEN)).state
        [RawFrame.parsed "error" (some "oops") none]).loading = false :=
  ⟨onmessage_error s m tx, by decide, by decide, by decide, by decide, by decide⟩

/-- C9: a delimiter frame whose text is not exactly "###" falls
through every branch of the dispatch and is a complete no-op — it
neither changes the transcript nor clears the loading flag, so the
client is left still awaiting a response. -/
theorem C9_wrong_sentinel (s : ChatState) (c tx : Option String)
    (h : tx ≠ some "###") :
    onmessage s (RawFrame.parsed "delimiter" c tx) = s := by
  simp only [onmessage]
  rw [if_neg (by decide : ¬("delimiter" = "token")),
    if_neg (fun hc => h hc.2),
    if_neg (by decide : ¬("delimiter" = "error")),
    if_neg (by decide : ¬("delimiter" = "typing"))]

/-- C9, witness: a delimiter frame with text "##" received while
loading leaves the state — including the set loading flag — exactly
as it was. -/
theorem C9_wrong_sentinel_witness :
    onmessage { input := "", messages := [], loading := true, isConnected := true }
        (RawFrame.parsed "delimiter" none (some "##"))
      = { input := "", messages := [], loading := true, isConnected := true } :=
  C9_wrong_sentinel
    { input := "", messages := [], loading := true, isConnected := true }
    none (some "##") (by decide)

/-- C10: the open bot turn appended by an error frame is not
protected: a following token appends its content onto the error
turn's text, and a following "###" delimiter finalizes the error
turn, after which it has the same shape as a normal finalized
answer. -/
theorem C10_error_turn_unprotected (s : ChatState) (m : Option String) (c : String) :
    (onmessage (onmessage s (RawFrame.parsed "error" m none))
        (RawFrame.parsed "token" (some c) none)).messages
      = s.messages ++
        [{ sender := "bot", text := errorFallback m ++ c, hasAnswer := false }]
  ∧ (onmessage (onmessage s (RawFrame.parsed "error" m none))
        (RawFrame.parsed "delimiter" none (some "###"))).messages
      = s.messages ++
        [{ sender := "bot", text := errorFallback m, hasAnswer := true }] := by
  constructor
  · rw [onmessage_error, onmessage_token]
    dsimp only
    rw [tokenUpdate_open]
    simp only [jsStr]
  · rw [onmessage_error, onmessage_delimiter]
    dsimp only
    rw [delimiterUpdate_concat, if_pos rfl]

end StreamingChatbot
